import Mathlib

/-!
Shallow embedding of the cost_planner_v3 engine
(src/products/cost_planner_v3/: constants.py, tier_assignment.py,
add_ons.py, ranges.py, calculator.py).

Conventions of the embedding:
* Python floats carrying money are modelled as exact rationals (ℚ).
  Python round(x, n) is modelled as rounding to the nearest multiple of
  10^(-n); Python rounds binary floats half-to-even, and no statement below
  exercises an exact half tie, so the tie direction is immaterial.
* Python dicts with a fixed key schema are modelled as structures whose
  fields are Option-valued where the source may leave the key absent.
* A Python set of strings is consulted only through membership tests, so it
  is modelled as a List String queried with the membership predicate.
* Code that raises is modelled with Except PyErr; the exception text keeps
  the shape of the CPython message (quotes around argument names dropped).
-/

/-- Python exception values distinguished by the engine. -/
inductive PyErr where
  | valueError (msg : String)
  | typeError (msg : String)
deriving DecidableEq

/-- A raw answer value that the source probes with isinstance(x, list):
either an actual list of strings or some non-list value. -/
inductive RawVal where
  | vlist (xs : List String)
  | scalar
deriving DecidableEq

/-- The raw answers dict of a GCP outcome record.  Every key may be absent.
The fields badls_count, behaviors_count and recommended_hours_per_week may
also appear directly on raw dicts (the test harness in
src/products/resources/cost_v3_test/product.py stores them there). -/
structure RawAnswers where
  badls : Option RawVal
  iadls : Option RawVal
  behaviors : Option RawVal
  chronic_conditions : Option RawVal
  meds_complexity : Option String
  incontinence : Option String
  safe_alone : Option String
  transfers : Option String
  mobility : Option String
  memory_changes : Option String
  mood : Option String
  falls : Option String
  badls_count : Option Nat
  behaviors_count : Option Nat
  recommended_hours_per_week : Option ℚ
deriving DecidableEq

/-- A raw answers dict with every key absent (the Python default diff). -/
def emptyRawAnswers : RawAnswers :=
  ⟨none, none, none, none, none, none, none, none, none, none, none, none,
   none, none, none⟩

/-- The raw GCP outcome record consumed by calculate_care_costs. -/
structure GcpOutcome where
  flags : Option (List String)
  answers : Option RawAnswers
  recommendation : Option String
  tier : Option String
  score : Option Int
  support_band : Option String
  hours_band : Option String
deriving DecidableEq

/-- A completely empty raw outcome record. -/
def emptyOutcome : GcpOutcome := ⟨none, none, none, none, none, none, none⟩

/-- The normalized answers dict built by prepare_gcp_context.  After
normalization the count keys are always present (ℕ fields); the dict built
by prepare_gcp_context contains no recommended_hours_per_week key, so that
field is none on every normalized dict it produces. -/
structure Answers where
  badls_count : Nat
  badls_list : List String
  iadls_count : Nat
  iadls_list : List String
  behaviors_count : Nat
  behaviors_list : List String
  chronic_conditions : List String
  meds_complexity : Option String
  incontinence : Option String
  safe_alone : Option String
  transfers : Option String
  mobility : Option String
  memory_changes : Option String
  mood : Option String
  falls : Option String
  recommended_hours_per_week : Option ℚ
deriving DecidableEq

/-- A normalized answers dict for an assessment that reported nothing. -/
def emptyAnswers : Answers :=
  ⟨0, [], 0, [], 0, [], [], none, none, none, none, none, none, none, none,
   none⟩

/-- The six-key dict returned by prepare_gcp_context
(tier_assignment.py lines 276-283). -/
structure GcpContext where
  flags : List String
  answers : Answers
  tier : Option String
  score : Int
  support_band : String
  hours_band : String
deriving DecidableEq

/-- Python round(x, 2) as exact rounding of a rational to whole cents. -/
def round2 (x : ℚ) : ℚ := ((round (x * 100) : ℤ) : ℚ) / 100

/-- Python round(x, 1): rounding to one decimal place. -/
def round1 (x : ℚ) : ℚ := ((round (x * 10) : ℤ) : ℚ) / 10

/-- One entry of BASE_COSTS_2024 (constants.py lines 14-57); only the
monthly and hourly cost keys are consulted by the engine, citation keys
are presentation-only and omitted. -/
structure BaseCostEntry where
  monthly : Option ℚ
  hourly : Option ℚ
deriving DecidableEq

/-- BASE_COSTS_2024 (constants.py lines 14-57) as a key lookup. -/
def BASE_COSTS_2024 : String → Option BaseCostEntry := fun care_type =>
  if care_type = "assisted_living" then some ⟨some 5900, none⟩
  else if care_type = "memory_care" then some ⟨some 7400, none⟩
  else if care_type = "memory_care_high_acuity" then some ⟨some 9400, none⟩
  else if care_type = "in_home_care" then some ⟨none, some 34.00⟩
  else if care_type = "homemaker_services" then some ⟨none, some 33.00⟩
  else if care_type = "home_carry" then some ⟨some 4500, none⟩
  else none

/-- get_base_cost (constants.py lines 169-189).  The Python default for
cost_type is "monthly"; call sites passing one argument are embedded with
an explicit "monthly". -/
def get_base_cost (care_type : String) (cost_type : String) : Except PyErr ℚ :=
  match BASE_COSTS_2024 care_type with
  | none => .error (.valueError ("Unknown care type: " ++ care_type))
  | some cost_data =>
    match (if cost_type = "monthly" then cost_data.monthly
           else if cost_type = "hourly" then cost_data.hourly else none) with
    | none => .error (.valueError
        ("Care type " ++ care_type ++ " does not have " ++ cost_type ++ " cost"))
    | some c => .ok c

/-- One tier entry of the increment tables (constants.py lines 64-133);
typical_profile is presentation-only and omitted. -/
structure TierConfig where
  increment : ℚ
  label : String
  description : String
deriving DecidableEq

/-- AL_TIER_INCREMENTS (constants.py lines 64-95). -/
def AL_TIER_INCREMENTS : String → Option TierConfig := fun tier =>
  if tier = "tier_0" then some ⟨0, "Standard Care",
    "Minimal support, independent with most ADLs"⟩
  else if tier = "tier_1" then some ⟨600, "Light Assistance",
    "Medication management OR mild ADL help"⟩
  else if tier = "tier_2" then some ⟨1200, "Moderate Assistance",
    "Mobility assistance OR moderate ADL help"⟩
  else if tier = "tier_3" then some ⟨2000, "Enhanced Support",
    "Memory support OR behavioral concerns OR extensive ADLs"⟩
  else if tier = "tier_4" then some ⟨3000, "Maximum Support",
    "Multiple high-intensity needs"⟩
  else none

/-- MC_TIER_INCREMENTS (constants.py lines 102-133). -/
def MC_TIER_INCREMENTS : String → Option TierConfig := fun tier =>
  if tier = "tier_0" then some ⟨0, "Standard Memory Care",
    "Base secured memory care environment"⟩
  else if tier = "tier_1" then some ⟨400, "Light ADL Support",
    "Mild ADL or mobility support"⟩
  else if tier = "tier_2" then some ⟨900, "Moderate ADL Support",
    "Moderate ADLs or mobility needs"⟩
  else if tier = "tier_3" then some ⟨1500, "Enhanced Behavioral Support",
    "Behavioral concerns or complex ADLs"⟩
  else if tier = "tier_4" then some ⟨2200, "High-Acuity Care",
    "Severe behaviors or hands-on care"⟩
  else none

/-- MAX_ADDON_PCT (constants.py line 141). -/
def MAX_ADDON_PCT : ℚ := 0.15

/-- MAX_ADDON_ABSOLUTE (constants.py line 144). -/
def MAX_ADDON_ABSOLUTE : ℚ := 800

/-- ADDON_AMOUNTS (constants.py lines 147-151) as a key lookup; every use
site passes one of the three present keys. -/
def ADDON_AMOUNTS : String → ℚ := fun k =>
  if k = "fall_monitoring" then 0.50
  else if k = "chronic_complexity" then 0.375
  else if k = "incontinence_care" then 0.3125
  else 0

/-- CONFIDENCE_RANGES (constants.py lines 158-162) as a key lookup; every
use site passes one of the three present keys. -/
def CONFIDENCE_RANGES : String → ℚ := fun k =>
  if k = "high" then 0.07
  else if k = "medium" then 0.12
  else if k = "low" then 0.20
  else 0

/-- get_tier_increment (constants.py lines 192-215). -/
def get_tier_increment (care_type : String) (tier : String)
    (regional_multiplier : ℚ) : Except PyErr ℚ :=
  match (if care_type = "assisted_living" then some (AL_TIER_INCREMENTS tier)
         else if care_type = "memory_care" ∨ care_type = "memory_care_high_acuity"
           then some (MC_TIER_INCREMENTS tier)
         else none) with
  | none => .error (.valueError
      ("Tier increments not defined for care type: " ++ care_type))
  | some tier_config =>
    match tier_config with
    | none => .error (.valueError ("Unknown tier: " ++ tier))
    | some c => .ok (c.increment * regional_multiplier)

/-- get_tier_config (constants.py lines 218-225); the Python fallback of an
empty dict is modelled as none. -/
def get_tier_config (care_type : String) (tier : String) : Option TierConfig :=
  if care_type = "assisted_living" then AL_TIER_INCREMENTS tier
  else if care_type = "memory_care" ∨ care_type = "memory_care_high_acuity"
    then MC_TIER_INCREMENTS tier
  else none

/-- The sentinel filtering applied to each list-valued answer in
prepare_gcp_context (tier_assignment.py lines 231-255): an absent key
defaults to the empty list, a non-list value is replaced by the empty list,
and a list drops every "none" entry. -/
def filteredList (v : Option RawVal) : List String :=
  match v with
  | some (.vlist xs) => xs.filter (fun b => b ≠ "none")
  | some .scalar => []
  | none => []

/-- prepare_gcp_context (tier_assignment.py lines 211-283).  A total
function: every lookup has an explicit default, so it never raises. -/
def prepare_gcp_context (gcp_outcome : GcpOutcome) : GcpContext :=
  let answers := gcp_outcome.answers.getD emptyRawAnswers
  let badls_list := filteredList answers.badls
  let iadls_list := filteredList answers.iadls
  let behaviors_list := filteredList answers.behaviors
  let chronic_list := filteredList answers.chronic_conditions
  { flags := (gcp_outcome.flags.getD []),
    answers :=
      { badls_count := badls_list.length,
        badls_list := badls_list,
        iadls_count := iadls_list.length,
        iadls_list := iadls_list,
        behaviors_count := behaviors_list.length,
        behaviors_list := behaviors_list,
        chronic_conditions := chronic_list,
        meds_complexity := answers.meds_complexity,
        incontinence := answers.incontinence,
        safe_alone := answers.safe_alone,
        transfers := answers.transfers,
        mobility := answers.mobility,
        memory_changes := answers.memory_changes,
        mood := answers.mood,
        falls := answers.falls,
        recommended_hours_per_week := none },
    tier := gcp_outcome.tier,
    score := gcp_outcome.score.getD 0,
    support_band := gcp_outcome.support_band.getD "low",
    hours_band := gcp_outcome.hours_band.getD "<1h" }

/-- The dict returned by prepare_gcp_context has these six keys in this
insertion order (tier_assignment.py lines 276-283). -/
def gcp_context_keys : List String :=
  ["flags", "answers", "tier", "score", "support_band", "hours_band"]

/-- assign_assisted_living_tier (tier_assignment.py lines 10-75). -/
def assign_assisted_living_tier (gcp_flags : List String)
    (gcp_answers : Answers) : String :=
  let badls_count := gcp_answers.badls_count
  let iadls_count := gcp_answers.iadls_count
  let tier_4_conditions : List Bool :=
    [decide ("severe_cognitive_risk" ∈ gcp_flags),
     decide ("high_mobility_dependence" ∈ gcp_flags),
     decide ("behavioral_concerns" ∈ gcp_flags),
     decide (3 ≤ badls_count),
     decide ("continuous_supervision" ∈ gcp_flags)]
  if 2 ≤ (tier_4_conditions.map Bool.toNat).sum then "tier_4"
  else if "severe_cognitive_risk" ∈ gcp_flags
      ∨ ("moderate_cognitive_decline" ∈ gcp_flags ∧ 2 ≤ badls_count)
      ∨ "behavioral_concerns" ∈ gcp_flags
      ∨ 3 ≤ badls_count
      ∨ "high_dependence" ∈ gcp_flags then "tier_3"
  else if "high_mobility_dependence" ∈ gcp_flags
      ∨ "transfer_assistance_1person" ∈ gcp_flags
      ∨ 2 ≤ badls_count
      ∨ "incontinence_management" ∈ gcp_flags
      ∨ "falls_multiple" ∈ gcp_flags then "tier_2"
  else if gcp_answers.meds_complexity = some "moderate"
      ∨ gcp_answers.meds_complexity = some "complex"
      ∨ badls_count = 1
      ∨ 4 ≤ iadls_count
      ∨ "mild_cognitive_decline" ∈ gcp_flags then "tier_1"
  else "tier_0"

/-- assign_memory_care_tier (tier_assignment.py lines 78-131). -/
def assign_memory_care_tier (gcp_flags : List String)
    (gcp_answers : Answers) : String :=
  let badls_count := gcp_answers.badls_count
  let behaviors_count := gcp_answers.behaviors_count
  if ("behavioral_concerns" ∈ gcp_flags ∧ 3 ≤ behaviors_count)
      ∨ ("continuous_supervision" ∈ gcp_flags ∧ "high_dependence" ∈ gcp_flags)
      ∨ 4 ≤ badls_count
      ∨ "transfer_lift_required" ∈ gcp_flags then "tier_4"
  else if "behavioral_concerns" ∈ gcp_flags
      ∨ 3 ≤ badls_count
      ∨ "transfer_assistance_2person" ∈ gcp_flags
      ∨ "high_dependence" ∈ gcp_flags then "tier_3"
  else if 2 ≤ badls_count
      ∨ "high_mobility_dependence" ∈ gcp_flags
      ∨ "incontinence_management" ∈ gcp_flags then "tier_2"
  else if badls_count = 1
      ∨ "transfer_assistance_1person" ∈ gcp_flags
      ∨ "moderate_mobility" ∈ gcp_flags then "tier_1"
  else "tier_0"

/-- should_recommend_memory_care_instead_of_al
(tier_assignment.py lines 134-173). -/
def should_recommend_memory_care_instead_of_al (gcp_flags : List String)
    (gcp_answers : Answers) : Bool :=
  if "memory_care_dx" ∈ gcp_flags
      ∧ (2 ≤ gcp_answers.badls_count
         ∨ "behavioral_concerns" ∈ gcp_flags
         ∨ "continuous_supervision" ∈ gcp_flags) then true
  else if "severe_cognitive_risk" ∈ gcp_flags
      ∧ ("behavioral_concerns" ∈ gcp_flags
         ∨ "continuous_supervision" ∈ gcp_flags
         ∨ gcp_answers.safe_alone = some "no") then true
  else if 3 ≤ gcp_answers.behaviors_count then true
  else false

/-- should_recommend_high_acuity_mc (tier_assignment.py lines 176-208).
Note the three required parameters; calculator.py line 124 invokes it with
only two. -/
def should_recommend_high_acuity_mc (gcp_flags : List String)
    (gcp_answers : Answers) (mc_tier : String) : Bool :=
  if mc_tier = "tier_4"
      ∧ ("transfer_lift_required" ∈ gcp_flags
         ∨ gcp_answers.incontinence = some "complete"
         ∨ ("continuous_supervision" ∈ gcp_flags
            ∧ 2 ≤ gcp_answers.behaviors_count)) then true
  else false

/-- A raw add-on entry as first built by calculate_add_ons
(add_ons.py lines 41-67), before the capping pass adds the capped key. -/
structure AddOnRaw where
  label : String
  amount : ℚ
  description : String
  reason : String
deriving DecidableEq

/-- An add-on entry after the capping pass (add_ons.py lines 69-79). -/
structure AddOn where
  label : String
  amount : ℚ
  description : String
  reason : String
  capped : Bool
deriving DecidableEq

/-- should_apply_chronic_addon (add_ons.py lines 84-142). -/
def should_apply_chronic_addon (gcp_flags : List String)
    (gcp_answers : Answers) : Bool :=
  let chronic_list := gcp_answers.chronic_conditions
  let chronic_count := chronic_list.length
  if chronic_count = 0 then false
  else if 3 ≤ chronic_count
      ∧ (gcp_answers.meds_complexity = some "moderate"
         ∨ gcp_answers.meds_complexity = some "complex") then true
  else if 2 ≤ chronic_count ∧ "falls_multiple" ∈ gcp_flags then true
  else
    let high_impact_conditions : List String :=
      ["parkinsons", "copd", "heart_disease", "stroke"]
    let has_high_impact :=
      high_impact_conditions.any (fun c => chronic_list.contains c)
    let badls_count := gcp_answers.badls_count
    if has_high_impact ∧ 1 ≤ badls_count then true
    else if 2 ≤ (chronic_list.filter
        (fun c => high_impact_conditions.contains c)).length then true
    else false

/-- The list of raw add-ons accumulated by calculate_add_ons
(add_ons.py lines 35-67), in evaluation order fall - chronic -
incontinence, given the already-computed max_addon cap. -/
def raw_add_ons (gcp_flags : List String) (gcp_answers : Answers)
    (max_addon : ℚ) : List AddOnRaw :=
  (if "falls_multiple" ∈ gcp_flags then
    [⟨"Fall Prevention Monitoring",
      min 400 (max_addon * ADDON_AMOUNTS "fall_monitoring"),
      "Enhanced monitoring and prevention protocols",
      "Multiple falls in past 6 months"⟩]
   else []) ++
  (if should_apply_chronic_addon gcp_flags gcp_answers then
    [⟨"Chronic Condition Management",
      min 300 (max_addon * ADDON_AMOUNTS "chronic_complexity"),
      "Coordination and monitoring for complex chronic conditions",
      toString gcp_answers.chronic_conditions.length
        ++ " chronic conditions requiring active management"⟩]
   else []) ++
  (if "incontinence_management" ∈ gcp_flags ∧ gcp_answers.badls_count < 2 then
    [⟨"Incontinence Care",
      min 250 (max_addon * ADDON_AMOUNTS "incontinence_care"),
      "Regular assistance and supplies",
      "Requires incontinence management support"⟩]
   else [])

/-- The in-place scaling of one add-on in the capping branch
(add_ons.py lines 74-76). -/
def scaledCapped (scale_factor : ℚ) (a : AddOnRaw) : AddOn :=
  ⟨a.label, a.amount * scale_factor, a.description, a.reason, true⟩

/-- The uncapped marking of one add-on (add_ons.py lines 78-79). -/
def markedUncapped (a : AddOnRaw) : AddOn :=
  ⟨a.label, a.amount, a.description, a.reason, false⟩

/-- calculate_add_ons (add_ons.py lines 11-81).  The care_type parameter is
accepted and never read, exactly as in the source. -/
def calculate_add_ons (care_type : String) (gcp_flags : List String)
    (gcp_answers : Answers) (regional_base : ℚ) : List AddOn :=
  let _ := care_type
  let max_addon := min MAX_ADDON_ABSOLUTE (regional_base * MAX_ADDON_PCT)
  let add_ons := raw_add_ons gcp_flags gcp_answers max_addon
  let total_addons := (add_ons.map AddOnRaw.amount).sum
  if max_addon < total_addons then
    add_ons.map (scaledCapped (max_addon / total_addons))
  else
    add_ons.map markedUncapped

/-- The sum of the amount fields of a list of add-ons. -/
def addOnTotal (l : List AddOn) : ℚ := (l.map AddOn.amount).sum

/-- has_high_uncertainty (ranges.py lines 76-110). -/
def has_high_uncertainty (gcp_flags : List String) (gcp_answers : Answers)
    (care_type : String) : Bool :=
  if "behavioral_concerns" ∈ gcp_flags ∧ 3 ≤ gcp_answers.behaviors_count
    then true
  else if care_type = "memory_care_high_acuity" then true
  else if "transfer_assistance_2person" ∈ gcp_flags
      ∧ 3 ≤ gcp_answers.badls_count then true
  else if "transfer_lift_required" ∈ gcp_flags then true
  else if care_type = "in_home_care" ∧ "continuous_supervision" ∈ gcp_flags
    then true
  else false

/-- has_moderate_uncertainty (ranges.py lines 113-147). -/
def has_moderate_uncertainty (gcp_flags : List String) (gcp_answers : Answers)
    (care_type : String) : Bool :=
  if (care_type = "memory_care" ∨ care_type = "memory_care_high_acuity")
      ∧ "behavioral_concerns" ∈ gcp_flags then true
  else if "falls_multiple" ∈ gcp_flags
      ∧ "high_mobility_dependence" ∈ gcp_flags then true
  else if 3 ≤ gcp_answers.chronic_conditions.length
      ∧ "falls_multiple" ∈ gcp_flags then true
  else if "high_dependence" ∈ gcp_flags then true
  else if "continuous_supervision" ∈ gcp_flags ∧ care_type ≠ "in_home_care"
    then true
  else false

/-- get_high_uncertainty_factors (ranges.py lines 150-168). -/
def get_high_uncertainty_factors (gcp_flags : List String)
    (gcp_answers : Answers) (care_type : String) : List String :=
  (if 3 ≤ gcp_answers.behaviors_count then
    ["Significant behavioral needs (" ++ toString gcp_answers.behaviors_count
      ++ " behaviors) require intensive support"]
   else []) ++
  (if care_type = "memory_care_high_acuity" then
    ["High-acuity memory care has wide market variation"] else []) ++
  (if "transfer_assistance_2person" ∈ gcp_flags
      ∨ "transfer_lift_required" ∈ gcp_flags then
    ["2-person transfers or mechanical lifts require specialized staffing"]
   else []) ++
  (if "continuous_supervision" ∈ gcp_flags ∧ care_type = "in_home_care" then
    ["24/7 in-home care has wide market variation"] else [])

/-- get_moderate_uncertainty_factors (ranges.py lines 171-191). -/
def get_moderate_uncertainty_factors (gcp_flags : List String)
    (gcp_answers : Answers) (care_type : String) : List String :=
  let _ := care_type
  (if "behavioral_concerns" ∈ gcp_flags then
    ["Behavioral needs may vary and require flexible support"] else []) ++
  (if "falls_multiple" ∈ gcp_flags then
    ["Fall risk requires enhanced monitoring"] else []) ++
  (if 3 ≤ gcp_answers.chronic_conditions.length then
    [toString gcp_answers.chronic_conditions.length
      ++ " chronic conditions may require additional oversight"] else []) ++
  (if "high_dependence" ∈ gcp_flags then
    ["High level of care dependency varies by provider capability"] else []) ++
  (if "continuous_supervision" ∈ gcp_flags then
    ["Continuous supervision requirements vary by community"] else [])

/-- generate_range_explanation (ranges.py lines 194-224). -/
def generate_range_explanation (confidence : String)
    (widening_factors : List String) : String :=
  if confidence = "high" then
    "Cost range is narrow (±7%) because care needs are stable and predictable. Most communities will fall within this range."
  else if confidence = "medium" then
    "Cost range is moderate (±12%) because "
      ++ (String.intercalate " and " widening_factors).toLower
      ++ ". Different communities may price these needs differently."
  else
    "Cost range is wide (±20%) because "
      ++ (String.intercalate "; " widening_factors).toLower
      ++ ". Significant market variation exists for these complex care needs."

/-- The record returned by calculate_cost_range (ranges.py lines 65-73). -/
structure RangeResult where
  low : ℚ
  likely : ℚ
  high : ℚ
  confidence : String
  range_pct : ℚ
  range_explanation : String
  widening_factors : List String
deriving DecidableEq

/-- calculate_cost_range (ranges.py lines 11-73). -/
def calculate_cost_range (total : ℚ) (gcp_flags : List String)
    (gcp_answers : Answers) (care_type : String) : RangeResult :=
  let confidence :=
    if has_high_uncertainty gcp_flags gcp_answers care_type then "low"
    else if has_moderate_uncertainty gcp_flags gcp_answers care_type then
      "medium"
    else "high"
  let widening_factors :=
    if has_high_uncertainty gcp_flags gcp_answers care_type then
      get_high_uncertainty_factors gcp_flags gcp_answers care_type
    else if has_moderate_uncertainty gcp_flags gcp_answers care_type then
      get_moderate_uncertainty_factors gcp_flags gcp_answers care_type
    else ["Care needs are stable and predictable"]
  let range_pct := CONFIDENCE_RANGES confidence
  let low := total * (1 - range_pct)
  let likely := total
  let high := total * (1 + range_pct)
  { low := round2 low,
    likely := round2 likely,
    high := round2 high,
    confidence := confidence,
    range_pct := range_pct,
    range_explanation := generate_range_explanation confidence widening_factors,
    widening_factors := widening_factors }

/-- One line of the breakdown list of a cost result. -/
structure BreakdownItem where
  label : String
  amount : ℚ
deriving DecidableEq

/-- The sum of the amount fields of a breakdown list. -/
def breakdownTotal (l : List BreakdownItem) : ℚ := (l.map BreakdownItem.amount).sum

/-- The result record assembled by the calculate_* path functions
(calculator.py).  The per-path dicts carry different key sets; keys a path
does not set are modelled as none or as the empty list. -/
structure CostResult where
  total_monthly : ℚ
  base_cost : Option ℚ
  regional_base : Option ℚ
  hourly_base : Option ℚ
  regional_hourly : Option ℚ
  hours_per_week : Option ℚ
  hours_per_month : Option ℚ
  family_hours_per_week : Option ℚ
  tier : String
  tier_id : String
  tier_increment : Option ℚ
  tier_description : Option String
  addons : List AddOn
  addon_total : Option ℚ
  addon_cap : Option ℚ
  breakdown : List BreakdownItem
deriving DecidableEq

/-- Python tuple unpacking of an iterable into exactly two names.
Iterating a Python dict yields its keys in insertion order; unpacking any
number of values other than two raises ValueError. -/
def unpack_two (keys : List String) : Except PyErr (String × String) :=
  match keys with
  | [a, b] => .ok (a, b)
  | [] => .error (.valueError "not enough values to unpack (expected 2, got 0)")
  | [_] => .error (.valueError "not enough values to unpack (expected 2, got 1)")
  | _ => .error (.valueError "too many values to unpack (expected 2)")

/-- The view of a raw answers dict that
should_recommend_memory_care_instead_of_al observes when
determine_care_type (calculator.py lines 117-118) passes it the RAW
answers dict instead of the normalized one: the predicate reads only the
keys badls_count, behaviors_count and safe_alone, each through .get with
default 0 (resp. None). -/
def rawPredicateView (a : RawAnswers) : Answers :=
  { emptyAnswers with
    badls_count := a.badls_count.getD 0,
    behaviors_count := a.behaviors_count.getD 0,
    safe_alone := a.safe_alone }

/-- determine_care_type (calculator.py lines 100-127).
Line 117 fetches the RAW answers dict (gcp_outcome.get("answers", {})) and
hands it to the escalation predicate, so the badls/behaviors list counts
computed by prepare_gcp_context are invisible here.  Line 124 invokes
should_recommend_high_acuity_mc with two arguments although the function
(tier_assignment.py line 176) declares three parameters, so reaching the
memory_care branch raises TypeError. -/
def determine_care_type (gcp_outcome : GcpOutcome) (gcp_flags : List String) :
    Except PyErr String :=
  let recommendation := gcp_outcome.recommendation.getD "assisted_living"
  let recommendation :=
    if recommendation = "assisted_living" then
      if should_recommend_memory_care_instead_of_al gcp_flags
          (rawPredicateView (gcp_outcome.answers.getD emptyRawAnswers)) then
        "memory_care"
      else recommendation
    else recommendation
  if recommendation = "memory_care" then
    .error (.typeError
      "should_recommend_high_acuity_mc() missing 1 required positional argument: mc_tier")
  else .ok recommendation

/-- calculate_assisted_living (calculator.py lines 130-173).
After the base-cost, tier and increment lookups succeed, line 150 invokes
calculate_add_ons(gcp_flags, gcp_answers, max_addon) with three positional
arguments, but calculate_add_ons (add_ons.py line 11) requires four
(care_type, gcp_flags, gcp_answers, regional_base), so Python raises
TypeError there; the remainder of the body (lines 151-173) is unreachable
and is not modelled. -/
def calculate_assisted_living (gcp_flags : List String)
    (gcp_answers : Answers) (regional_multiplier : ℚ) :
    Except PyErr CostResult := do
  let base_cost ← get_base_cost "assisted_living" "monthly"
  let _regional_base := base_cost * regional_multiplier
  let tier_id := assign_assisted_living_tier gcp_flags gcp_answers
  let _tier_config := get_tier_config "assisted_living" tier_id
  let _tier_increment ← get_tier_increment "assisted_living" tier_id
    regional_multiplier
  Except.error (.typeError
    "calculate_add_ons() missing 1 required positional argument: regional_base")

/-- calculate_memory_care (calculator.py lines 176-219); fails at line 196
for the same arity reason as calculate_assisted_living. -/
def calculate_memory_care (gcp_flags : List String) (gcp_answers : Answers)
    (regional_multiplier : ℚ) : Except PyErr CostResult := do
  let base_cost ← get_base_cost "memory_care" "monthly"
  let _regional_base := base_cost * regional_multiplier
  let tier_id := assign_memory_care_tier gcp_flags gcp_answers
  let _tier_config := get_tier_config "memory_care" tier_id
  let _tier_increment ← get_tier_increment "memory_care" tier_id
    regional_multiplier
  Except.error (.typeError
    "calculate_add_ons() missing 1 required positional argument: regional_base")

/-- calculate_memory_care_high_acuity (calculator.py lines 222-259); fails
at line 237 for the same arity reason. -/
def calculate_memory_care_high_acuity (gcp_flags : List String)
    (gcp_answers : Answers) (regional_multiplier : ℚ) :
    Except PyErr CostResult := do
  let base_cost ← get_base_cost "memory_care_high_acuity" "monthly"
  let _regional_base := base_cost * regional_multiplier
  let _ := gcp_flags
  let _ := gcp_answers
  Except.error (.typeError
    "calculate_add_ons() missing 1 required positional argument: regional_base")

/-- The pure remainder of calculate_in_home_care (calculator.py lines
275-297) parameterized by the hourly base cost that line 274 tries to
fetch.  Label strings abbreviate the Python f-strings (presentation only);
every amount is verbatim.  Note that the third breakdown entry carries the
whole monthly total while the first two carry the hourly rate and the
hourly regional adjustment. -/
def in_home_result (hourly_base : ℚ) (gcp_answers : Answers)
    (regional_multiplier : ℚ) : CostResult :=
  let regional_hourly := hourly_base * regional_multiplier
  let hours_per_week := gcp_answers.recommended_hours_per_week.getD 20
  let hours_per_month := hours_per_week * 4.33
  let total := regional_hourly * hours_per_month
  { total_monthly := round2 total,
    base_cost := none,
    regional_base := none,
    hourly_base := some (round2 hourly_base),
    regional_hourly := some (round2 regional_hourly),
    hours_per_week := some hours_per_week,
    hours_per_month := some (round1 hours_per_month),
    family_hours_per_week := none,
    tier := toString hours_per_week ++ " hours/week",
    tier_id := "hourly",
    tier_increment := none,
    tier_description := none,
    addons := [],
    addon_total := none,
    addon_cap := none,
    breakdown :=
      [⟨"National Hourly Rate", round2 hourly_base⟩,
       ⟨"Regional Adjustment", round2 (regional_hourly - hourly_base)⟩,
       ⟨"hrs/week x 4.33", round2 total⟩] }

/-- calculate_in_home_care (calculator.py lines 262-297).  Line 274 calls
get_base_cost("in_home_hourly"): BASE_COSTS_2024 has no such key (the
in-home entry is keyed "in_home_care"), so the lookup always raises
ValueError and in_home_result is never reached. -/
def calculate_in_home_care (gcp_flags : List String) (gcp_answers : Answers)
    (regional_multiplier : ℚ) : Except PyErr CostResult :=
  let _ := gcp_flags
  (get_base_cost "in_home_hourly" "monthly").map
    (fun hourly_base => in_home_result hourly_base gcp_answers regional_multiplier)

/-- calculate_homemaker_care (calculator.py lines 300-330).  Line 308 calls
get_base_cost("homemaker_hourly"): BASE_COSTS_2024 has no such key (the
entry is keyed "homemaker_services"), so the lookup always raises
ValueError; the unreachable remainder is not modelled. -/
def calculate_homemaker_care (gcp_flags : List String) (gcp_answers : Answers)
    (regional_multiplier : ℚ) : Except PyErr CostResult :=
  let _ := gcp_flags
  let _ := gcp_answers
  let _ := regional_multiplier
  match get_base_cost "homemaker_hourly" "monthly" with
  | .error e => .error e
  | .ok _ => .error (.valueError "unreachable: the lookup above always fails")

/-- calculate_home_with_carry (calculator.py lines 333-370).  Line 345
calls get_base_cost("in_home_hourly") and fails exactly like
calculate_in_home_care; the unreachable remainder is not modelled. -/
def calculate_home_with_carry (gcp_flags : List String)
    (gcp_answers : Answers) (regional_multiplier : ℚ) :
    Except PyErr CostResult :=
  let _ := gcp_flags
  let _ := gcp_answers
  let _ := regional_multiplier
  match get_base_cost "in_home_hourly" "monthly" with
  | .error e => .error e
  | .ok _ => .error (.valueError "unreachable: the lookup above always fails")

/-- calculate_care_costs (calculator.py lines 24-97).  Line 49 executes
the statement
  gcp_flags, gcp_answers = prepare_gcp_context(gcp_outcome);
prepare_gcp_context returns a dict with the six keys gcp_context_keys, and
tuple-unpacking a dict iterates its keys, so unpacking six keys into two
names raises ValueError before the care type is even resolved.  Dispatch
and range assembly (lines 52-97) are unreachable on every input. -/
def calculate_care_costs (gcp_outcome : GcpOutcome)
    (regional_multiplier : ℚ) (care_type : Option String) :
    Except PyErr CostResult :=
  let _ctx := prepare_gcp_context gcp_outcome
  let _ := regional_multiplier
  let _ := care_type
  match unpack_two gcp_context_keys with
  | .error e => .error e
  | .ok _ => .error (.valueError "unreachable: gcp_context_keys has six entries")

/-- Rank of a tier identifier under tier_0 < tier_1 < tier_2 < tier_3 <
tier_4 (any other string ranks 0). -/
def tierRank (tier : String) : Nat :=
  if tier = "tier_4" then 4
  else if tier = "tier_3" then 3
  else if tier = "tier_2" then 2
  else if tier = "tier_1" then 1
  else 0

/-- The scenario record of claim C2: no flags, empty answers, upstream
recommendation assisted_living. -/
def outcome_al_minimal : GcpOutcome :=
  { flags := some [],
    answers := some emptyRawAnswers,
    recommendation := some "assisted_living",
    tier := none,
    score := none,
    support_band := none,
    hours_band := none }

/-- A normalized answers dict requesting 40 recommended hours per week
(as a standalone argument to the in-home path; the normalized dicts built
by prepare_gcp_context never carry this key). -/
def answers_hours_40 : Answers :=
  { emptyAnswers with recommended_hours_per_week := some 40 }

/-- The raw outcome record of the in-home scenario of claim C8. -/
def outcome_in_home_40 : GcpOutcome :=
  { flags := some [],
    answers := some { emptyRawAnswers with recommended_hours_per_week := some 40 },
    recommendation := some "in_home_care",
    tier := none,
    score := none,
    support_band := none,
    hours_band := none }


/-- A raw outcome whose raw badls answer lists two activities, carrying
flag memory_care_dx and upstream recommendation assisted_living. -/
def outcome_dementia_two_badls : GcpOutcome :=
  { flags := some ["memory_care_dx"],
    answers := some
      { emptyRawAnswers with badls := some (.vlist ["bathing", "dressing"]) },
    recommendation := some "assisted_living",
    tier := none,
    score := none,
    support_band := none,
    hours_band := none }

/-- C1: the claim states that calculate_care_costs completes without
raising for every record whose effective care type is recognized, and
fails only on unknown care types or missing configuration.  The code
contradicts this: for every input record, regional multiplier and
care-type override, the call raises ValueError at the context-unpacking
statement (calculator.py line 49), because prepare_gcp_context returns a
six-key dict which cannot be unpacked into the two names gcp_flags,
gcp_answers.  (prepare_gcp_context itself is total, as the claim says:
it is embedded as a plain function into GcpContext.) -/
theorem c1_calculate_care_costs_always_raises (gcp_outcome : GcpOutcome)
    (regional_multiplier : ℚ) (care_type : Option String) :
    calculate_care_costs gcp_outcome regional_multiplier care_type
      = .error (.valueError "too many values to unpack (expected 2)") := rfl

/-- C2: the claim gives the assisted-living base scenario (no flags, no
chronic conditions, recommendation assisted_living, multiplier 1.0) the
result tier_0 / increment 0 / no add-ons / total 5900.00 / confidence high
/ low 5487.00 / high 6313.00.  The engine components do produce exactly
those values, but the orchestrated call itself raises ValueError at the
context-unpacking statement instead of returning them. -/
theorem c2_al_minimal_scenario :
    calculate_care_costs outcome_al_minimal 1 none
      = .error (.valueError "too many values to unpack (expected 2)")
    ∧ (prepare_gcp_context outcome_al_minimal).answers = emptyAnswers
    ∧ assign_assisted_living_tier [] emptyAnswers = "tier_0"
    ∧ get_base_cost "assisted_living" "monthly" = .ok 5900
    ∧ get_tier_increment "assisted_living" "tier_0" 1 = .ok 0
    ∧ calculate_add_ons "assisted_living" [] emptyAnswers 5900 = []
    ∧ (calculate_cost_range 5900 [] emptyAnswers "assisted_living").confidence
        = "high"
    ∧ (calculate_cost_range 5900 [] emptyAnswers "assisted_living").range_pct
        = 0.07
    ∧ (calculate_cost_range 5900 [] emptyAnswers "assisted_living").low = 5487
    ∧ (calculate_cost_range 5900 [] emptyAnswers "assisted_living").high
        = 6313 := by
  refine ⟨rfl, rfl, by decide, rfl, ?_, ?_, rfl, rfl, ?_, ?_⟩
  · norm_num [get_tier_increment, AL_TIER_INCREMENTS]
  · show (if _ < _ then _ else _) = ([] : List AddOn)
    split <;> simp [raw_add_ons, should_apply_chronic_addon, emptyAnswers]
  · simp [calculate_cost_range, has_high_uncertainty, has_moderate_uncertainty,
      emptyAnswers, CONFIDENCE_RANGES, round2, round_eq]
    norm_num [Int.floor_eq_iff]
  · simp [calculate_cost_range, has_high_uncertainty, has_moderate_uncertainty,
      emptyAnswers, CONFIDENCE_RANGES, round2, round_eq]
    norm_num [Int.floor_eq_iff]

/-- C6: the claim states that the escalation predicates are evaluated on
the normalized context and that the high-acuity check receives the
already-assigned memory-care tier.  The code diverges twice: (1)
determine_care_type hands the predicate the RAW answers dict, so a record
whose raw badls list has two entries (normalized badls_count = 2, which
together with the memory_care_dx flag satisfies the predicate) is NOT
escalated; (2) whenever the (possibly overridden) recommendation is
memory_care, the two-argument call to the three-parameter
should_recommend_high_acuity_mc raises TypeError instead of consulting
the assigned tier. -/
theorem c6_escalation_chain_diverges :
    determine_care_type outcome_dementia_two_badls ["memory_care_dx"]
      = .ok "assisted_living"
    ∧ should_recommend_memory_care_instead_of_al ["memory_care_dx"]
        (prepare_gcp_context outcome_dementia_two_badls).answers = true
    ∧ determine_care_type { emptyOutcome with recommendation := some "memory_care" } []
        = .error (.typeError
          "should_recommend_high_acuity_mc() missing 1 required positional argument: mc_tier") :=
  ⟨rfl, by decide, rfl⟩

/-- C7: the claim states that for every successful calculate_care_costs
call the breakdown amounts sum to total_monthly within one cent.  No call
succeeds at all (the context-unpacking statement raises first), so the
claim has no witnessing successful call; moreover the in-home path itself
fails at its base-cost lookup, and the breakdown it would assemble
(calculator.py lines 292-296: hourly rate, hourly regional adjustment, and
the full monthly total as three entries) sums to 5922.80 against a
total_monthly of 5888.80 at the 40-hours, multiplier-1 scenario, a 34.00
discrepancy. -/
theorem c7_breakdown_reconciliation_fails :
    calculate_care_costs outcome_in_home_40 1 (some "in_home_care")
      = .error (.valueError "too many values to unpack (expected 2)")
    ∧ calculate_in_home_care [] answers_hours_40 1
      = .error (.valueError "Unknown care type: in_home_hourly")
    ∧ (in_home_result 34 answers_hours_40 1).total_monthly = 5888.80
    ∧ breakdownTotal (in_home_result 34 answers_hours_40 1).breakdown = 5922.80
    ∧ breakdownTotal (in_home_result 34 answers_hours_40 1).breakdown
        - (in_home_result 34 answers_hours_40 1).total_monthly = 34 := by
  refine ⟨rfl, rfl, ?_, ?_, ?_⟩ <;>
  · simp [breakdownTotal, in_home_result, answers_hours_40, emptyAnswers,
      round2, round_eq]
    norm_num [Int.floor_eq_iff]

/-- C8: the claim states the in-home scenario (40 hours/week, multiplier
1.0) returns hours_per_month 173.2 and total 5888.80 using the configured
hourly rate 34.00.  The code raises instead: the orchestrated call fails
at context unpacking, and calculate_in_home_care itself asks
get_base_cost for the nonexistent key in_home_hourly (the table entry is
keyed in_home_care), raising ValueError.  The configured rate and the
claimed arithmetic are otherwise real: the table holds hourly 34.00 under
in_home_care, and 34.00 x 40 x 4.33 rounds to 5888.80. -/
theorem c8_in_home_scenario_crashes :
    calculate_care_costs outcome_in_home_40 1 (some "in_home_care")
      = .error (.valueError "too many values to unpack (expected 2)")
    ∧ calculate_in_home_care [] answers_hours_40 1
      = .error (.valueError "Unknown care type: in_home_hourly")
    ∧ calculate_home_with_carry [] answers_hours_40 1
      = .error (.valueError "Unknown care type: in_home_hourly")
    ∧ get_base_cost "in_home_care" "hourly" = .ok 34.00
    ∧ (40 : ℚ) * 4.33 = 173.2
    ∧ round2 (34.00 * (40 * 4.33)) = 5888.80 := by
  refine ⟨rfl, rfl, rfl, rfl, by norm_num, ?_⟩
  rw [round2, round_eq]
  norm_num [Int.floor_eq_iff]

/-- C10: the claim states that with no recommendation key and no override,
determine_care_type starts from the default assisted_living so the
calculation proceeds on the assisted-living path.  The default is real:
determine_care_type on the empty record returns assisted_living and no
InvalidCareType arises.  But the calculation never proceeds on any path:
calculate_care_costs raises ValueError at the context-unpacking statement
before determine_care_type is even called. -/
theorem c10_default_recommendation_but_no_dispatch :
    determine_care_type emptyOutcome [] = .ok "assisted_living"
    ∧ calculate_care_costs emptyOutcome 1 none
      = .error (.valueError "too many values to unpack (expected 2)") :=
  ⟨rfl, rfl⟩

/-- Rounding to cents is monotone. -/
theorem round2_mono {x y : ℚ} (h : x ≤ y) : round2 x ≤ round2 y := by
  have hr : round (x * 100) ≤ round (y * 100) := by
    rw [round_eq, round_eq]
    exact Int.floor_mono (by linarith)
  have hc : ((round (x * 100) : ℤ) : ℚ) ≤ ((round (y * 100) : ℤ) : ℚ) := by
    exact_mod_cast hr
  rw [round2, round2]
  linarith

/-- C4 counterexample: at the negative total -100 with no uncertainty
flags, calculate_cost_range returns low = -93.00 and likely = -100.00, so
the claimed ordering low ≤ likely fails; the claim as stated quantifies
over every total. -/
theorem c4_counterexample_negative_total :
    ¬ ((calculate_cost_range (-100) [] emptyAnswers "assisted_living").low
        ≤ (calculate_cost_range (-100) [] emptyAnswers "assisted_living").likely) := by
  have hlow : (calculate_cost_range (-100) [] emptyAnswers "assisted_living").low
      = -93 := by
    simp [calculate_cost_range, has_high_uncertainty, has_moderate_uncertainty,
      emptyAnswers, CONFIDENCE_RANGES, round2, round_eq]
    norm_num [Int.floor_eq_iff]
  have hlik : (calculate_cost_range (-100) [] emptyAnswers "assisted_living").likely
      = -100 := by
    simp [calculate_cost_range, has_high_uncertainty, has_moderate_uncertainty,
      emptyAnswers, CONFIDENCE_RANGES, round2, round_eq]
    norm_num [Int.floor_eq_iff]
  rw [hlow, hlik]
  norm_num

/-- C4 (amended to non-negative totals): for every total ≥ 0, flag set,
answer mapping and care type, calculate_cost_range returns low, likely and
high equal to total x (1 - range_pct), total, and total x (1 + range_pct)
rounded to cents, range_pct is exactly 0.07 for confidence high, 0.12 for
medium and 0.20 for low, and low ≤ likely ≤ high. -/
theorem c4_cost_range_formula (total : ℚ) (gcp_flags : List String)
    (gcp_answers : Answers) (care_type : String) (h : 0 ≤ total) :
    (calculate_cost_range total gcp_flags gcp_answers care_type).low
      = round2 (total * (1 - (calculate_cost_range total gcp_flags gcp_answers care_type).range_pct))
    ∧ (calculate_cost_range total gcp_flags gcp_answers care_type).likely
      = round2 total
    ∧ (calculate_cost_range total gcp_flags gcp_answers care_type).high
      = round2 (total * (1 + (calculate_cost_range total gcp_flags gcp_answers care_type).range_pct))
    ∧ (((calculate_cost_range total gcp_flags gcp_answers care_type).confidence = "high"
        ∧ (calculate_cost_range total gcp_flags gcp_answers care_type).range_pct = 0.07)
      ∨ ((calculate_cost_range total gcp_flags gcp_answers care_type).confidence = "medium"
        ∧ (calculate_cost_range total gcp_flags gcp_answers care_type).range_pct = 0.12)
      ∨ ((calculate_cost_range total gcp_flags gcp_answers care_type).confidence = "low"
        ∧ (calculate_cost_range total gcp_flags gcp_answers care_type).range_pct = 0.20))
    ∧ (calculate_cost_range total gcp_flags gcp_answers care_type).low
      ≤ (calculate_cost_range total gcp_flags gcp_answers care_type).likely
    ∧ (calculate_cost_range total gcp_flags gcp_answers care_type).likely
      ≤ (calculate_cost_range total gcp_flags gcp_answers care_type).high := by
  cases hH : has_high_uncertainty gcp_flags gcp_answers care_type with
  | true =>
    refine ⟨by simp [calculate_cost_range, hH, CONFIDENCE_RANGES],
      by simp [calculate_cost_range, hH],
      by simp [calculate_cost_range, hH, CONFIDENCE_RANGES],
      Or.inr (Or.inr ⟨by simp [calculate_cost_range, hH],
        by simp [calculate_cost_range, hH, CONFIDENCE_RANGES]⟩), ?_, ?_⟩
    · simp [calculate_cost_range, hH, CONFIDENCE_RANGES]
      exact round2_mono (by nlinarith)
    · simp [calculate_cost_range, hH, CONFIDENCE_RANGES]
      exact round2_mono (by nlinarith)
  | false =>
    cases hM : has_moderate_uncertainty gcp_flags gcp_answers care_type with
    | true =>
      refine ⟨by simp [calculate_cost_range, hH, hM, CONFIDENCE_RANGES],
        by simp [calculate_cost_range, hH, hM],
        by simp [calculate_cost_range, hH, hM, CONFIDENCE_RANGES],
        Or.inr (Or.inl ⟨by simp [calculate_cost_range, hH, hM],
          by simp [calculate_cost_range, hH, hM, CONFIDENCE_RANGES]⟩), ?_, ?_⟩
      · simp [calculate_cost_range, hH, hM, CONFIDENCE_RANGES]
        exact round2_mono (by nlinarith)
      · simp [calculate_cost_range, hH, hM, CONFIDENCE_RANGES]
        exact round2_mono (by nlinarith)
    | false =>
      refine ⟨by simp [calculate_cost_range, hH, hM, CONFIDENCE_RANGES],
        by simp [calculate_cost_range, hH, hM],
        by simp [calculate_cost_range, hH, hM, CONFIDENCE_RANGES],
        Or.inl ⟨by simp [calculate_cost_range, hH, hM],
          by simp [calculate_cost_range, hH, hM, CONFIDENCE_RANGES]⟩, ?_, ?_⟩
      · simp [calculate_cost_range, hH, hM, CONFIDENCE_RANGES]
        exact round2_mono (by nlinarith)
      · simp [calculate_cost_range, hH, hM, CONFIDENCE_RANGES]
        exact round2_mono (by nlinarith)

/-- C4 witness: the amended theorem applied at the concrete non-negative
total 5900 of the base assisted-living scenario. -/
theorem c4_cost_range_formula_witness :
    (calculate_cost_range 5900 [] emptyAnswers "assisted_living").low
      ≤ (calculate_cost_range 5900 [] emptyAnswers "assisted_living").likely
    ∧ (calculate_cost_range 5900 [] emptyAnswers "assisted_living").likely
      ≤ (calculate_cost_range 5900 [] emptyAnswers "assisted_living").high :=
  ⟨(c4_cost_range_formula 5900 [] emptyAnswers "assisted_living" (by decide)).2.2.2.2.1,
   (c4_cost_range_formula 5900 [] emptyAnswers "assisted_living" (by decide)).2.2.2.2.2⟩

/-- Projecting amounts out of the capping map is the uniform scaling of
the raw amounts. -/
theorem map_amount_scaledCapped (l : List AddOnRaw) (k : ℚ) :
    ((l.map (scaledCapped k)).map AddOn.amount)
      = l.map (fun a => a.amount * k) := by
  rw [List.map_map]
  rfl

/-- Projecting amounts out of the uncapped marking leaves them unchanged. -/
theorem map_amount_markedUncapped (l : List AddOnRaw) :
    ((l.map markedUncapped).map AddOn.amount) = l.map AddOnRaw.amount := by
  rw [List.map_map]
  rfl

/-- C3: for every care type, flag set, normalized answer mapping, and
non-negative regional base, the add-on list returned by calculate_add_ons
sums to at most min(800, regional_base x 0.15); when the unscaled sum of
the included add-ons exceeds that cap, each included add-on amount is
multiplied by cap/sum with none dropped and every entry is marked
capped = true, and otherwise every entry is marked capped = false with
amounts unchanged. -/
theorem c3_addon_cap_invariant (care_type : String) (gcp_flags : List String)
    (gcp_answers : Answers) (regional_base : ℚ) (h : 0 ≤ regional_base) :
    addOnTotal (calculate_add_ons care_type gcp_flags gcp_answers regional_base)
      ≤ min 800 (regional_base * 0.15)
    ∧ (calculate_add_ons care_type gcp_flags gcp_answers regional_base).length
      = (raw_add_ons gcp_flags gcp_answers (min 800 (regional_base * 0.15))).length
    ∧ (min 800 (regional_base * 0.15)
        < ((raw_add_ons gcp_flags gcp_answers (min 800 (regional_base * 0.15))).map
            AddOnRaw.amount).sum →
       ((calculate_add_ons care_type gcp_flags gcp_answers regional_base).map
            AddOn.amount
          = (raw_add_ons gcp_flags gcp_answers (min 800 (regional_base * 0.15))).map
              (fun a => a.amount
                * (min 800 (regional_base * 0.15)
                  / ((raw_add_ons gcp_flags gcp_answers
                        (min 800 (regional_base * 0.15))).map AddOnRaw.amount).sum))
        ∧ ∀ a ∈ calculate_add_ons care_type gcp_flags gcp_answers regional_base,
            a.capped = true))
    ∧ (¬ (min 800 (regional_base * 0.15)
        < ((raw_add_ons gcp_flags gcp_answers (min 800 (regional_base * 0.15))).map
            AddOnRaw.amount).sum) →
       ((calculate_add_ons care_type gcp_flags gcp_answers regional_base).map
            AddOn.amount
          = (raw_add_ons gcp_flags gcp_answers
              (min 800 (regional_base * 0.15))).map AddOnRaw.amount
        ∧ ∀ a ∈ calculate_add_ons care_type gcp_flags gcp_answers regional_base,
            a.capped = false)) := by
  have hconst : min MAX_ADDON_ABSOLUTE (regional_base * MAX_ADDON_PCT)
      = min 800 (regional_base * 0.15) := rfl
  have hcap0 : (0 : ℚ) ≤ min 800 (regional_base * 0.15) :=
    le_min (by norm_num) (by positivity)
  by_cases hc : min 800 (regional_base * 0.15)
      < ((raw_add_ons gcp_flags gcp_answers (min 800 (regional_base * 0.15))).map
          AddOnRaw.amount).sum
  · have hres : calculate_add_ons care_type gcp_flags gcp_answers regional_base
        = (raw_add_ons gcp_flags gcp_answers (min 800 (regional_base * 0.15))).map
            (scaledCapped
              ((min 800 (regional_base * 0.15))
                / ((raw_add_ons gcp_flags gcp_answers
                      (min 800 (regional_base * 0.15))).map AddOnRaw.amount).sum)) := by
      rw [calculate_add_ons]
      rw [hconst]
      rw [if_pos hc]
    have hsumpos : (0 : ℚ)
        < ((raw_add_ons gcp_flags gcp_answers (min 800 (regional_base * 0.15))).map
            AddOnRaw.amount).sum := lt_of_le_of_lt hcap0 hc
    have hsum : addOnTotal
        (calculate_add_ons care_type gcp_flags gcp_answers regional_base)
        = min 800 (regional_base * 0.15) := by
      rw [addOnTotal, hres, map_amount_scaledCapped, List.sum_map_mul_right]
      field_simp
    refine ⟨le_of_eq hsum, ?_, fun _ => ⟨?_, ?_⟩, fun hend => absurd hc hend⟩
    · rw [hres, List.length_map]
    · rw [hres, map_amount_scaledCapped]
    · rw [hres]
      intro a ha
      rcases List.mem_map.mp ha with ⟨b, _, hb⟩
      rw [← hb]
      rfl
  · have hres : calculate_add_ons care_type gcp_flags gcp_answers regional_base
        = (raw_add_ons gcp_flags gcp_answers
            (min 800 (regional_base * 0.15))).map markedUncapped := by
      rw [calculate_add_ons]
      rw [hconst]
      rw [if_neg hc]
    have hsum : addOnTotal
        (calculate_add_ons care_type gcp_flags gcp_answers regional_base)
        = ((raw_add_ons gcp_flags gcp_answers (min 800 (regional_base * 0.15))).map
            AddOnRaw.amount).sum := by
      rw [addOnTotal, hres, map_amount_markedUncapped]
    refine ⟨hsum ▸ le_of_not_lt hc, ?_, fun hcc => absurd hcc hc, fun _ => ⟨?_, ?_⟩⟩
    · rw [hres, List.length_map]
    · rw [hres, map_amount_markedUncapped]
    · rw [hres]
      intro a ha
      rcases List.mem_map.mp ha with ⟨b, _, hb⟩
      rw [← hb]
      rfl

/-- C3 witness: the cap invariant applied at the concrete input of a
falls_multiple flag with regional base 5900. -/
theorem c3_addon_cap_invariant_witness :
    addOnTotal (calculate_add_ons "assisted_living" ["falls_multiple"]
        emptyAnswers 5900)
      ≤ min 800 ((5900 : ℚ) * 0.15) :=
  (c3_addon_cap_invariant "assisted_living" ["falls_multiple"] emptyAnswers
    5900 (by decide)).1

/-- Assisted-living tier-4 guard: at least 2 of {severe cognitive risk,
high mobility dependence, behavioral concerns, badls_count >= 3,
continuous supervision} hold. -/
def al_guard_4 (fl : List String) (ans : Answers) : Prop :=
  2 ≤ (List.map Bool.toNat
    [decide ("severe_cognitive_risk" ∈ fl),
     decide ("high_mobility_dependence" ∈ fl),
     decide ("behavioral_concerns" ∈ fl),
     decide (3 ≤ ans.badls_count),
     decide ("continuous_supervision" ∈ fl)]).sum

/-- Assisted-living tier-3 guard. -/
def al_guard_3 (fl : List String) (ans : Answers) : Prop :=
  "severe_cognitive_risk" ∈ fl
  ∨ ("moderate_cognitive_decline" ∈ fl ∧ 2 ≤ ans.badls_count)
  ∨ "behavioral_concerns" ∈ fl
  ∨ 3 ≤ ans.badls_count
  ∨ "high_dependence" ∈ fl

/-- Assisted-living tier-2 guard. -/
def al_guard_2 (fl : List String) (ans : Answers) : Prop :=
  "high_mobility_dependence" ∈ fl
  ∨ "transfer_assistance_1person" ∈ fl
  ∨ 2 ≤ ans.badls_count
  ∨ "incontinence_management" ∈ fl
  ∨ "falls_multiple" ∈ fl

/-- Assisted-living tier-1 guard. -/
def al_guard_1 (fl : List String) (ans : Answers) : Prop :=
  ans.meds_complexity = some "moderate"
  ∨ ans.meds_complexity = some "complex"
  ∨ ans.badls_count = 1
  ∨ 4 ≤ ans.iadls_count
  ∨ "mild_cognitive_decline" ∈ fl

/-- C5: assign_assisted_living_tier behaves as the ordered cascade with
first match winning: tier_4 exactly when at least 2 of the five tier-4
signals hold; otherwise tier_3 exactly on its guard; otherwise tier_2
exactly on its guard; otherwise tier_1 exactly on its guard; and tier_0
exactly when no guard fires. -/
theorem c5_al_tier_cascade (fl : List String) (ans : Answers) :
    (assign_assisted_living_tier fl ans = "tier_4" ↔ al_guard_4 fl ans)
    ∧ (assign_assisted_living_tier fl ans = "tier_3"
        ↔ (¬ al_guard_4 fl ans ∧ al_guard_3 fl ans))
    ∧ (assign_assisted_living_tier fl ans = "tier_2"
        ↔ (¬ al_guard_4 fl ans ∧ ¬ al_guard_3 fl ans ∧ al_guard_2 fl ans))
    ∧ (assign_assisted_living_tier fl ans = "tier_1"
        ↔ (¬ al_guard_4 fl ans ∧ ¬ al_guard_3 fl ans ∧ ¬ al_guard_2 fl ans
            ∧ al_guard_1 fl ans))
    ∧ (assign_assisted_living_tier fl ans = "tier_0"
        ↔ (¬ al_guard_4 fl ans ∧ ¬ al_guard_3 fl ans ∧ ¬ al_guard_2 fl ans
            ∧ ¬ al_guard_1 fl ans)) := by
  rw [assign_assisted_living_tier, al_guard_4, al_guard_3, al_guard_2,
    al_guard_1]
  split_ifs with h4 h3 h2 h1 <;>
    refine ⟨?_, ?_, ?_, ?_, ?_⟩ <;> simp_all

/-- Memory-care tier-4 guard. -/
def mc_guard_4 (fl : List String) (ans : Answers) : Prop :=
  ("behavioral_concerns" ∈ fl ∧ 3 ≤ ans.behaviors_count)
  ∨ ("continuous_supervision" ∈ fl ∧ "high_dependence" ∈ fl)
  ∨ 4 ≤ ans.badls_count
  ∨ "transfer_lift_required" ∈ fl

/-- Memory-care tier-3 guard. -/
def mc_guard_3 (fl : List String) (ans : Answers) : Prop :=
  "behavioral_concerns" ∈ fl
  ∨ 3 ≤ ans.badls_count
  ∨ "transfer_assistance_2person" ∈ fl
  ∨ "high_dependence" ∈ fl

/-- Memory-care tier-2 guard. -/
def mc_guard_2 (fl : List String) (ans : Answers) : Prop :=
  2 ≤ ans.badls_count
  ∨ "high_mobility_dependence" ∈ fl
  ∨ "incontinence_management" ∈ fl

/-- Memory-care tier-1 guard. -/
def mc_guard_1 (fl : List String) (ans : Answers) : Prop :=
  ans.badls_count = 1
  ∨ "transfer_assistance_1person" ∈ fl
  ∨ "moderate_mobility" ∈ fl

/-- The memory-care cascade in guard form (mirror of c5 for the second
rule set; used to relate ranks below). -/
theorem mc_tier_cascade (fl : List String) (ans : Answers) :
    (assign_memory_care_tier fl ans = "tier_4" ↔ mc_guard_4 fl ans)
    ∧ (assign_memory_care_tier fl ans = "tier_3"
        ↔ (¬ mc_guard_4 fl ans ∧ mc_guard_3 fl ans))
    ∧ (assign_memory_care_tier fl ans = "tier_2"
        ↔ (¬ mc_guard_4 fl ans ∧ ¬ mc_guard_3 fl ans ∧ mc_guard_2 fl ans))
    ∧ (assign_memory_care_tier fl ans = "tier_1"
        ↔ (¬ mc_guard_4 fl ans ∧ ¬ mc_guard_3 fl ans ∧ ¬ mc_guard_2 fl ans
            ∧ mc_guard_1 fl ans))
    ∧ (assign_memory_care_tier fl ans = "tier_0"
        ↔ (¬ mc_guard_4 fl ans ∧ ¬ mc_guard_3 fl ans ∧ ¬ mc_guard_2 fl ans
            ∧ ¬ mc_guard_1 fl ans)) := by
  rw [assign_memory_care_tier, mc_guard_4, mc_guard_3, mc_guard_2, mc_guard_1]
  split_ifs with h4 h3 h2 h1 <;>
    refine ⟨?_, ?_, ?_, ?_, ?_⟩ <;> simp_all

/-- If the AL tier-4 guard holds, the assigned AL tier is tier_4. -/
theorem al_eq_4 {fl : List String} {ans : Answers} (h : al_guard_4 fl ans) :
    assign_assisted_living_tier fl ans = "tier_4" := by
  rw [al_guard_4] at h
  rw [assign_assisted_living_tier]
  exact if_pos h

/-- Without the tier-4 guard but with the tier-3 guard, the AL tier is
tier_3. -/
theorem al_eq_3 {fl : List String} {ans : Answers} (h4 : ¬ al_guard_4 fl ans)
    (h3 : al_guard_3 fl ans) : assign_assisted_living_tier fl ans = "tier_3" := by
  rw [al_guard_4] at h4
  rw [al_guard_3] at h3
  rw [assign_assisted_living_tier, if_neg h4, if_pos h3]

/-- Without the tier-4/3 guards but with the tier-2 guard, the AL tier is
tier_2. -/
theorem al_eq_2 {fl : List String} {ans : Answers} (h4 : ¬ al_guard_4 fl ans)
    (h3 : ¬ al_guard_3 fl ans) (h2 : al_guard_2 fl ans) :
    assign_assisted_living_tier fl ans = "tier_2" := by
  rw [al_guard_4] at h4
  rw [al_guard_3] at h3
  rw [al_guard_2] at h2
  rw [assign_assisted_living_tier, if_neg h4, if_neg h3, if_pos h2]

/-- Without the tier-4/3/2 guards but with the tier-1 guard, the AL tier
is tier_1. -/
theorem al_eq_1 {fl : List String} {ans : Answers} (h4 : ¬ al_guard_4 fl ans)
    (h3 : ¬ al_guard_3 fl ans) (h2 : ¬ al_guard_2 fl ans)
    (h1 : al_guard_1 fl ans) : assign_assisted_living_tier fl ans = "tier_1" := by
  rw [al_guard_4] at h4
  rw [al_guard_3] at h3
  rw [al_guard_2] at h2
  rw [al_guard_1] at h1
  rw [assign_assisted_living_tier, if_neg h4, if_neg h3, if_neg h2, if_pos h1]

/-- With no guard, the AL tier is tier_0. -/
theorem al_eq_0 {fl : List String} {ans : Answers} (h4 : ¬ al_guard_4 fl ans)
    (h3 : ¬ al_guard_3 fl ans) (h2 : ¬ al_guard_2 fl ans)
    (h1 : ¬ al_guard_1 fl ans) : assign_assisted_living_tier fl ans = "tier_0" := by
  rw [al_guard_4] at h4
  rw [al_guard_3] at h3
  rw [al_guard_2] at h2
  rw [al_guard_1] at h1
  rw [assign_assisted_living_tier, if_neg h4, if_neg h3, if_neg h2, if_neg h1]

/-- If the AL tier-3 guard holds (whatever the higher guard does), the
assigned AL tier ranks at least 3. -/
theorem al_rank_ge_3 {fl : List String} {ans : Answers}
    (h : al_guard_3 fl ans) :
    3 ≤ tierRank (assign_assisted_living_tier fl ans) := by
  rw [al_guard_3] at h
  rw [assign_assisted_living_tier]
  split_ifs <;> decide

/-- If the AL tier-2 guard holds, the assigned AL tier ranks at least 2. -/
theorem al_rank_ge_2 {fl : List String} {ans : Answers}
    (h : al_guard_2 fl ans) :
    2 ≤ tierRank (assign_assisted_living_tier fl ans) := by
  rw [al_guard_2] at h
  rw [assign_assisted_living_tier]
  split_ifs <;> decide

/-- If the AL tier-1 guard holds, the assigned AL tier ranks at least 1. -/
theorem al_rank_ge_1 {fl : List String} {ans : Answers}
    (h : al_guard_1 fl ans) :
    1 ≤ tierRank (assign_assisted_living_tier fl ans) := by
  rw [al_guard_1] at h
  rw [assign_assisted_living_tier]
  split_ifs <;> decide

/-- If the MC tier-4 guard holds, the assigned MC tier is tier_4. -/
theorem mc_eq_4 {fl : List String} {ans : Answers} (h : mc_guard_4 fl ans) :
    assign_memory_care_tier fl ans = "tier_4" := by
  rw [mc_guard_4] at h
  rw [assign_memory_care_tier]
  exact if_pos h

/-- Without the tier-4 guard but with the tier-3 guard, the MC tier is
tier_3. -/
theorem mc_eq_3 {fl : List String} {ans : Answers} (h4 : ¬ mc_guard_4 fl ans)
    (h3 : mc_guard_3 fl ans) : assign_memory_care_tier fl ans = "tier_3" := by
  rw [mc_guard_4] at h4
  rw [mc_guard_3] at h3
  rw [assign_memory_care_tier, if_neg h4, if_pos h3]

/-- Without the tier-4/3 guards but with the tier-2 guard, the MC tier is
tier_2. -/
theorem mc_eq_2 {fl : List String} {ans : Answers} (h4 : ¬ mc_guard_4 fl ans)
    (h3 : ¬ mc_guard_3 fl ans) (h2 : mc_guard_2 fl ans) :
    assign_memory_care_tier fl ans = "tier_2" := by
  rw [mc_guard_4] at h4
  rw [mc_guard_3] at h3
  rw [mc_guard_2] at h2
  rw [assign_memory_care_tier, if_neg h4, if_neg h3, if_pos h2]

/-- Without the tier-4/3/2 guards but with the tier-1 guard, the MC tier
is tier_1. -/
theorem mc_eq_1 {fl : List String} {ans : Answers} (h4 : ¬ mc_guard_4 fl ans)
    (h3 : ¬ mc_guard_3 fl ans) (h2 : ¬ mc_guard_2 fl ans)
    (h1 : mc_guard_1 fl ans) : assign_memory_care_tier fl ans = "tier_1" := by
  rw [mc_guard_4] at h4
  rw [mc_guard_3] at h3
  rw [mc_guard_2] at h2
  rw [mc_guard_1] at h1
  rw [assign_memory_care_tier, if_neg h4, if_neg h3, if_neg h2, if_pos h1]

/-- With no guard, the MC tier is tier_0. -/
theorem mc_eq_0 {fl : List String} {ans : Answers} (h4 : ¬ mc_guard_4 fl ans)
    (h3 : ¬ mc_guard_3 fl ans) (h2 : ¬ mc_guard_2 fl ans)
    (h1 : ¬ mc_guard_1 fl ans) : assign_memory_care_tier fl ans = "tier_0" := by
  rw [mc_guard_4] at h4
  rw [mc_guard_3] at h3
  rw [mc_guard_2] at h2
  rw [mc_guard_1] at h1
  rw [assign_memory_care_tier, if_neg h4, if_neg h3, if_neg h2, if_neg h1]

/-- If the MC tier-3 guard holds, the assigned MC tier ranks at least 3. -/
theorem mc_rank_ge_3 {fl : List String} {ans : Answers}
    (h : mc_guard_3 fl ans) :
    3 ≤ tierRank (assign_memory_care_tier fl ans) := by
  rw [mc_guard_3] at h
  rw [assign_memory_care_tier]
  split_ifs <;> decide

/-- If the MC tier-2 guard holds, the assigned MC tier ranks at least 2. -/
theorem mc_rank_ge_2 {fl : List String} {ans : Answers}
    (h : mc_guard_2 fl ans) :
    2 ≤ tierRank (assign_memory_care_tier fl ans) := by
  rw [mc_guard_2] at h
  rw [assign_memory_care_tier]
  split_ifs <;> decide

/-- If the MC tier-1 guard holds, the assigned MC tier ranks at least 1. -/
theorem mc_rank_ge_1 {fl : List String} {ans : Answers}
    (h : mc_guard_1 fl ans) :
    1 ≤ tierRank (assign_memory_care_tier fl ans) := by
  rw [mc_guard_1] at h
  rw [assign_memory_care_tier]
  split_ifs <;> decide

/-- Indicator of a threshold test is monotone in the tested count. -/
theorem toNat_decide_le_mono {m b bp : ℕ} (h : b ≤ bp) :
    (decide (m ≤ b)).toNat ≤ (decide (m ≤ bp)).toNat := by
  by_cases hm : m ≤ b
  · simp [hm, le_trans hm h]
  · simp [hm]

/-- The AL tier-4 guard is monotone in badls_count (all other signals
fixed). -/
theorem al_guard_4_mono (fl : List String) {ans ans' : Answers}
    (hb : ans.badls_count ≤ ans'.badls_count)
    (hg : al_guard_4 fl ans) : al_guard_4 fl ans' := by
  rw [al_guard_4] at hg ⊢
  simp only [List.map_cons, List.map_nil, List.sum_cons, List.sum_nil] at hg ⊢
  have hx : (decide (3 ≤ ans.badls_count)).toNat
      ≤ (decide (3 ≤ ans'.badls_count)).toNat := toNat_decide_le_mono hb
  omega

/-- The AL tier-3 guard is monotone in badls_count. -/
theorem al_guard_3_mono (fl : List String) {ans ans' : Answers}
    (hb : ans.badls_count ≤ ans'.badls_count)
    (hg : al_guard_3 fl ans) : al_guard_3 fl ans' := by
  rw [al_guard_3] at hg ⊢
  rcases hg with h | ⟨hm, h⟩ | h | h | h
  · exact Or.inl h
  · exact Or.inr (Or.inl ⟨hm, le_trans h hb⟩)
  · exact Or.inr (Or.inr (Or.inl h))
  · exact Or.inr (Or.inr (Or.inr (Or.inl (le_trans h hb))))
  · exact Or.inr (Or.inr (Or.inr (Or.inr h)))

/-- The AL tier-2 guard is monotone in badls_count. -/
theorem al_guard_2_mono (fl : List String) {ans ans' : Answers}
    (hb : ans.badls_count ≤ ans'.badls_count)
    (hg : al_guard_2 fl ans) : al_guard_2 fl ans' := by
  rw [al_guard_2] at hg ⊢
  rcases hg with h | h | h | h | h
  · exact Or.inl h
  · exact Or.inr (Or.inl h)
  · exact Or.inr (Or.inr (Or.inl (le_trans h hb)))
  · exact Or.inr (Or.inr (Or.inr (Or.inl h)))
  · exact Or.inr (Or.inr (Or.inr (Or.inr h)))

/-- The MC tier-4 guard is monotone in badls_count (behaviors fixed). -/
theorem mc_guard_4_mono (fl : List String) {ans ans' : Answers}
    (hb : ans.badls_count ≤ ans'.badls_count)
    (hbeh : ans.behaviors_count = ans'.behaviors_count)
    (hg : mc_guard_4 fl ans) : mc_guard_4 fl ans' := by
  rw [mc_guard_4] at hg ⊢
  rcases hg with ⟨hf, h⟩ | h | h | h
  · exact Or.inl ⟨hf, hbeh ▸ h⟩
  · exact Or.inr (Or.inl h)
  · exact Or.inr (Or.inr (Or.inl (le_trans h hb)))
  · exact Or.inr (Or.inr (Or.inr h))

/-- The MC tier-3 guard is monotone in badls_count. -/
theorem mc_guard_3_mono (fl : List String) {ans ans' : Answers}
    (hb : ans.badls_count ≤ ans'.badls_count)
    (hg : mc_guard_3 fl ans) : mc_guard_3 fl ans' := by
  rw [mc_guard_3] at hg ⊢
  rcases hg with h | h | h | h
  · exact Or.inl h
  · exact Or.inr (Or.inl (le_trans h hb))
  · exact Or.inr (Or.inr (Or.inl h))
  · exact Or.inr (Or.inr (Or.inr h))

/-- The MC tier-2 guard is monotone in badls_count. -/
theorem mc_guard_2_mono (fl : List String) {ans ans' : Answers}
    (hb : ans.badls_count ≤ ans'.badls_count)
    (hg : mc_guard_2 fl ans) : mc_guard_2 fl ans' := by
  rw [mc_guard_2] at hg ⊢
  rcases hg with h | h | h
  · exact Or.inl (le_trans h hb)
  · exact Or.inr (Or.inl h)
  · exact Or.inr (Or.inr h)

/-- C9: for fixed flags and fixed remaining answers, increasing
badls_count never decreases the tier assigned by
assign_assisted_living_tier or by assign_memory_care_tier, under the
ordering tier_0 < tier_1 < tier_2 < tier_3 < tier_4. -/
theorem c9_badls_monotone (fl : List String) (ans : Answers) (b bp : ℕ)
    (h : b ≤ bp) :
    tierRank (assign_assisted_living_tier fl { ans with badls_count := b })
      ≤ tierRank (assign_assisted_living_tier fl { ans with badls_count := bp })
    ∧ tierRank (assign_memory_care_tier fl { ans with badls_count := b })
      ≤ tierRank (assign_memory_care_tier fl { ans with badls_count := bp }) := by
  have hbb : ({ ans with badls_count := b } : Answers).badls_count
      ≤ ({ ans with badls_count := bp } : Answers).badls_count := h
  have ht4 : tierRank "tier_4" = 4 := by decide
  have ht3 : tierRank "tier_3" = 3 := by decide
  have ht2 : tierRank "tier_2" = 2 := by decide
  have ht1 : tierRank "tier_1" = 1 := by decide
  have ht0 : tierRank "tier_0" = 0 := by decide
  constructor
  · by_cases h4 : al_guard_4 fl { ans with badls_count := b }
    · rw [al_eq_4 h4, al_eq_4 (al_guard_4_mono fl hbb h4)]
    · by_cases h3 : al_guard_3 fl { ans with badls_count := b }
      · rw [al_eq_3 h4 h3, ht3]
        exact al_rank_ge_3 (al_guard_3_mono fl hbb h3)
      · by_cases h2 : al_guard_2 fl { ans with badls_count := b }
        · rw [al_eq_2 h4 h3 h2, ht2]
          exact al_rank_ge_2 (al_guard_2_mono fl hbb h2)
        · by_cases h1 : al_guard_1 fl { ans with badls_count := b }
          · rw [al_eq_1 h4 h3 h2 h1, ht1]
            have h1d := h1
            rw [al_guard_1] at h1d
            rcases h1d with hm | hm | hb1 | hi | hfm
            · exact al_rank_ge_1 (by rw [al_guard_1]; exact Or.inl hm)
            · exact al_rank_ge_1 (by rw [al_guard_1]; exact Or.inr (Or.inl hm))
            · by_cases hbp : 2 ≤ bp
              · refine le_trans (by norm_num) (al_rank_ge_2 ?_)
                rw [al_guard_2]
                exact Or.inr (Or.inr (Or.inl hbp))
              · have hb1n : b = 1 := hb1
                have hbp1 : bp = 1 := by omega
                refine al_rank_ge_1 ?_
                rw [al_guard_1]
                exact Or.inr (Or.inr (Or.inl hbp1))
            · exact al_rank_ge_1
                (by rw [al_guard_1]; exact Or.inr (Or.inr (Or.inr (Or.inl hi))))
            · exact al_rank_ge_1
                (by rw [al_guard_1]; exact Or.inr (Or.inr (Or.inr (Or.inr hfm))))
          · rw [al_eq_0 h4 h3 h2 h1, ht0]
            exact Nat.zero_le _
  · have hbeh : ({ ans with badls_count := b } : Answers).behaviors_count
        = ({ ans with badls_count := bp } : Answers).behaviors_count := rfl
    by_cases h4 : mc_guard_4 fl { ans with badls_count := b }
    · rw [mc_eq_4 h4, mc_eq_4 (mc_guard_4_mono fl hbb hbeh h4)]
    · by_cases h3 : mc_guard_3 fl { ans with badls_count := b }
      · rw [mc_eq_3 h4 h3, ht3]
        exact mc_rank_ge_3 (mc_guard_3_mono fl hbb h3)
      · by_cases h2 : mc_guard_2 fl { ans with badls_count := b }
        · rw [mc_eq_2 h4 h3 h2, ht2]
          exact mc_rank_ge_2 (mc_guard_2_mono fl hbb h2)
        · by_cases h1 : mc_guard_1 fl { ans with badls_count := b }
          · rw [mc_eq_1 h4 h3 h2 h1, ht1]
            have h1d := h1
            rw [mc_guard_1] at h1d
            rcases h1d with hb1 | hp | hmm
            · by_cases hbp : 2 ≤ bp
              · refine le_trans (by norm_num) (mc_rank_ge_2 ?_)
                rw [mc_guard_2]
                exact Or.inl hbp
              · have hb1n : b = 1 := hb1
                have hbp1 : bp = 1 := by omega
                refine mc_rank_ge_1 ?_
                rw [mc_guard_1]
                exact Or.inl hbp1
            · exact mc_rank_ge_1 (by rw [mc_guard_1]; exact Or.inr (Or.inl hp))
            · exact mc_rank_ge_1 (by rw [mc_guard_1]; exact Or.inr (Or.inr hmm))
          · rw [mc_eq_0 h4 h3 h2 h1, ht0]
            exact Nat.zero_le _

/-- C9 witness: the monotonicity theorem applied at flags = [], empty
remaining answers, and the concrete pair 0 ≤ 3 of badls counts. -/
theorem c9_badls_monotone_witness :
    tierRank (assign_assisted_living_tier []
        { emptyAnswers with badls_count := 0 })
      ≤ tierRank (assign_assisted_living_tier []
        { emptyAnswers with badls_count := 3 })
    ∧ tierRank (assign_memory_care_tier []
        { emptyAnswers with badls_count := 0 })
      ≤ tierRank (assign_memory_care_tier []
        { emptyAnswers with badls_count := 3 }) :=
  c9_badls_monotone [] emptyAnswers 0 3 (by decide)
